import Mathlib

/-!
Shallow embedding of the badproxy-web session store (the AuthProvider in
src/contexts/AuthContext.tsx) and of the API client error interceptor
(src/services/api.ts).  React state setters are modelled as immediate field
updates on an explicit world state; network results are inputs to the
operations; localStorage is a record of the three keys the store uses;
timestamps are integers (epoch milliseconds).
-/

namespace BadProxy

/-- The user record (interface User in AuthContext.tsx and api.ts). -/
structure User where
  id : Nat
  username : String
  email : String
  full_name : String
  is_active : Bool
  is_admin : Bool
  created_at : String
  last_login : Option String
deriving DecidableEq

/-- A stored serialized user: either a string that parses back to a user
record (JSON round trip treated as identity) or a malformed string on which
JSON.parse throws. -/
inductive StoredUser where
  | valid (u : User)
  | malformed
deriving DecidableEq

/-- A stored expiry string: either an ISO timestamp denoting an instant, or a
malformed string for which new Date(s) yields an invalid date (every
comparison against it is false). -/
inductive StoredExpiry where
  | valid (t : Int)
  | malformed
deriving DecidableEq

/-- The three localStorage keys written and read by the session store. -/
structure Storage where
  badproxy_token : Option String
  badproxy_user : Option StoredUser
  badproxy_token_expiry : Option StoredExpiry
deriving DecidableEq

def Storage.empty : Storage := ⟨none, none, none⟩

/-- The system info record (types/api.ts). -/
structure SystemInfo where
  installed_protocols : List String
  version : String
  config_path : String
  vmess_enabled : Bool
deriving DecidableEq

/-- The health check record (types/api.ts). -/
structure HealthResponse where
  message : String
  status : String
  timestamp : String
  version : String
deriving DecidableEq

/-- The React state of AuthProvider (AuthContext.tsx lines 79-90). -/
structure AuthState where
  isAuthenticated : Bool
  user : Option User
  token : Option String
  tokenExpiry : Option Int
  isConnected : Bool
  systemInfo : Option SystemInfo
  health : Option HealthResponse
  isLoading : Bool
  error : Option String
deriving DecidableEq

/-- The whole observable state: the provider state, localStorage, and the
module level auth token slot of the API service (authToken in api.ts). -/
structure World where
  auth : AuthState
  storage : Storage
  apiToken : Option String
deriving DecidableEq

/-- The state at application start: all auth fields empty, isLoading true,
empty storage (the storage field is arbitrary in general; this is the empty
storage start). -/
def initialWorld : World :=
  { auth := { isAuthenticated := false, user := none, token := none,
              tokenExpiry := none, isConnected := false, systemInfo := none,
              health := none, isLoading := true, error := none },
    storage := Storage.empty,
    apiToken := none }

/-- Outcome of an awaited API call: ok with a value, or a throw.  A throw
carries some message when the thrown value is an Error instance (err.message)
and none otherwise. -/
inductive FetchOutcome (α : Type) where
  | ok (v : α)
  | err (msg : Option String)
deriving DecidableEq

/-- The body of POST /auth/login (LoginResponse in api.ts). -/
structure LoginResponse where
  access_token : String
  token_type : String
  expires_in : Int
deriving DecidableEq

/-- Whether the first character list is a leading segment of the second. -/
def charsStartWith : List Char → List Char → Bool
  | [], _ => true
  | _ :: _, [] => false
  | c :: cs, d :: ds => c == d && charsStartWith cs ds

/-- Whether the second character list occurs inside the first. -/
def charsContain : List Char → List Char → Bool
  | [], sub => sub.isEmpty
  | s@(_ :: t), sub => charsStartWith sub s || charsContain t sub

/-- String inclusion test, mirroring JavaScript String.prototype.includes. -/
def includes (s sub : String) : Bool := charsContain s.data sub.data

/-- Mirrors (err instanceof Error && err.message.includes(sub)). -/
def errMessageIncludes (e : Option String) (sub : String) : Bool :=
  match e with
  | some m => includes m sub
  | none => false

/-- logout (AuthContext.tsx lines 170-183): clears every auth field, the three
storage keys and the API service token; leaves isLoading untouched. -/
def logout (w : World) : World :=
  { auth := { isAuthenticated := false, user := none, token := none,
              tokenExpiry := none, isConnected := false, systemInfo := none,
              health := none, isLoading := w.auth.isLoading, error := none },
    storage := Storage.empty,
    apiToken := none }

/-- refreshUserInfo (AuthContext.tsx lines 196-210): no-op when not
authenticated; on success stores the user in state and storage; on failure
logs, and logs out only when the error message includes 401. -/
def refreshUserInfo (w : World) (r : FetchOutcome User) : World :=
  if w.auth.isAuthenticated = false then w
  else
    match r with
    | .ok u =>
        { w with
          auth := { w.auth with user := some u },
          storage := { w.storage with badproxy_user := some (StoredUser.valid u) } }
    | .err m => if errMessageIncludes m "401" then logout w else w

/-- login (AuthContext.tsx lines 133-168).  The apiService.login outcome and
the subsequent getCurrentUser outcome are inputs; now is Date.now() in epoch
milliseconds.  Returns the new world and the boolean result. -/
def login (w : World) (now : Int) (r : FetchOutcome LoginResponse)
    (fetchUser : FetchOutcome User) : World × Bool :=
  let w1 := { w with auth := { w.auth with isLoading := true, error := none } }
  match r with
  | .err m =>
      ({ w1 with auth := { w1.auth with
           error := some (m.getD "Login failed"), isLoading := false } }, false)
  | .ok resp =>
      if resp.access_token ≠ "" then
        let expiry := now + resp.expires_in * 1000
        let w2 := { w1 with
          auth := { w1.auth with
            token := some resp.access_token,
            isAuthenticated := true, tokenExpiry := some expiry },
          storage := { w1.storage with
            badproxy_token := some resp.access_token,
            badproxy_token_expiry := some (StoredExpiry.valid expiry) },
          apiToken := some resp.access_token }
        let w3 := refreshUserInfo w2 fetchUser
        ({ w3 with auth := { w3.auth with isLoading := false } }, true)
      else
        ({ w1 with auth := { w1.auth with isLoading := false } }, false)

/-- changePassword (AuthContext.tsx lines 185-194). -/
def changePassword (w : World) (r : FetchOutcome Unit) : World × Bool :=
  let w1 := { w with auth := { w.auth with error := none } }
  match r with
  | .ok _ => (w1, true)
  | .err m =>
      ({ w1 with auth := { w1.auth with
          error := some (m.getD "Failed to change password") } }, false)

/-- refreshHealth (AuthContext.tsx lines 212-225): on success sets health,
connected and clears the error; on failure sets connected false and fills the
error only when no error is currently set. -/
def refreshHealth (w : World) (r : FetchOutcome HealthResponse) : World :=
  match r with
  | .ok h =>
      { w with auth := { w.auth with
          health := some h, isConnected := true, error := none } }
  | .err m =>
      let w1 := { w with auth := { w.auth with isConnected := false } }
      if w.auth.error = none then
        { w1 with auth := { w1.auth with
            error := some (m.getD "Failed to connect to API") } }
      else w1

/-- Mirrors (error?.includes(..) checks) guarding refreshSystemInfo errors. -/
def errorMasks (e : Option String) : Bool :=
  match e with
  | some s => includes s "expired" || includes s "401"
  | none => false

/-- refreshSystemInfo (AuthContext.tsx lines 227-240). -/
def refreshSystemInfo (w : World) (r : FetchOutcome SystemInfo) : World :=
  if w.auth.isAuthenticated = false ∨ w.auth.isConnected = false then w
  else
    match r with
    | .ok s => { w with auth := { w.auth with systemInfo := some s } }
    | .err m =>
        if errorMasks w.auth.error then w
        else { w with auth := { w.auth with
                 error := some (m.getD "Failed to get system info") } }

/-- refreshToken (AuthContext.tsx lines 251-265): requires a user record;
extends the expiry to now plus 30 minutes, in state and storage. -/
def refreshToken (w : World) (now : Int) : World × Bool :=
  match w.auth.user with
  | none => (w, false)
  | some _ =>
      let newExpiry := now + 30 * 60 * 1000
      ({ w with
         auth := { w.auth with tokenExpiry := some newExpiry },
         storage := { w.storage with
                      badproxy_token_expiry := some (StoredExpiry.valid newExpiry) } },
       true)

/-- One firing of the expiry watch interval checkTokenExpiry (AuthContext.tsx
lines 268-288).  The effect only registers the interval while authenticated
with an expiry set, hence the guards.  Returns the new world together with the
number of refreshToken invocations made during the firing. -/
def checkTokenExpiry (w : World) (now : Int) : World × Nat :=
  if w.auth.isAuthenticated = false then (w, 0) else
  match w.auth.tokenExpiry with
  | none => (w, 0)
  | some exp =>
      let timeUntilExpiry := exp - now
      let p :=
        if timeUntilExpiry ≤ 5 * 60 * 1000 ∧ 0 < timeUntilExpiry then
          ((refreshToken w now).1, 1)
        else (w, 0)
      if timeUntilExpiry ≤ 0 then
        let w2 := logout p.1
        ({ w2 with auth := { w2.auth with
            error := some "Your session has expired. Please log in again." } }, p.2)
      else p

/-- The startup restore effect (AuthContext.tsx lines 93-120): reads the three
keys; when both token and user are present it parses the user and compares the
expiry against now, restoring the session when the expiry is a valid future
instant and logging out (which erases storage) otherwise or on a parse error;
when token or user is absent it does nothing; finally sets isLoading false. -/
def restoreSession (w : World) (now : Int) : World :=
  let w1 :=
    match w.storage.badproxy_token, w.storage.badproxy_user with
    | some storedToken, some storedUser =>
        match storedUser with
        | .malformed => logout w
        | .valid u =>
            match w.storage.badproxy_token_expiry with
            | some (StoredExpiry.valid e) =>
                if now < e then
                  { w with
                    auth := { w.auth with
                      token := some storedToken, user := some u,
                      tokenExpiry := some e, isAuthenticated := true },
                    apiToken := some storedToken }
                else logout w
            | some StoredExpiry.malformed => logout w
            | none => logout w
    | _, _ => w
  { w1 with auth := { w1.auth with isLoading := false } }

/-- The auth-expired event handler (AuthContext.tsx lines 123-131): logs out
then sets the session expired message. -/
def handleAuthExpired (w : World) : World :=
  let w1 := logout w
  { w1 with auth := { w1.auth with
      error := some "Your session has expired. Please log in again." } }

/-- One validation issue of the ApiError detail array (types/api.ts).  The
source field named type is rendered issueType. -/
structure ValidationIssue where
  loc : List String
  msg : String
  issueType : String
deriving DecidableEq

/-- The detail field of ApiError: a string or an array of issues. -/
inductive ApiErrorDetail where
  | text (s : String)
  | issues (l : List ValidationIssue)
deriving DecidableEq

/-- The error payload type of the backend (ApiError in types/api.ts). -/
structure ApiError where
  detail : ApiErrorDetail
  error_code : Option String
deriving DecidableEq

/-- The events the API client dispatches on window (api.ts lines 135-162). -/
inductive AppEvent where
  | authExpired (payload : Option ApiError)
  | accessDenied (payload : Option ApiError)
  | serverError (payload : Option ApiError) (status : Int)
deriving DecidableEq

/-- The module level state of the API client: the auth token slot (authToken
in api.ts) and localStorage. -/
structure ClientState where
  authToken : Option String
  storage : Storage
deriving DecidableEq

/-- The error branch of the response interceptor (api.ts lines 108-167).  The
input is error.response as an optional pair of status and data (none for a
network error with no response).  Returns the new client state and the list of
events dispatched, in dispatch order; the error itself is afterwards always
rejected back to the caller. -/
def interceptError (c : ClientState) (resp : Option (Int × ApiError)) :
    ClientState × List AppEvent :=
  let status : Option Int := resp.map Prod.fst
  let data : Option ApiError := resp.map Prod.snd
  let p1 :=
    if status = some 401 then
      ({ authToken := none,
         storage := { c.storage with
           badproxy_token := none, badproxy_user := none,
           badproxy_token_expiry := none } },
       [AppEvent.authExpired data])
    else (c, ([] : List AppEvent))
  let p2 :=
    if status = some 403 then (p1.1, p1.2 ++ [AppEvent.accessDenied data])
    else p1
  match status with
  | some s =>
      if s ≠ 0 ∧ 500 ≤ s then (p2.1, p2.2 ++ [AppEvent.serverError data s])
      else p2
  | none => p2

/-- One operation of the session store, together with its environment inputs.
Constructors carry the suffix step to keep them apart from the operations. -/
inductive Step : World → World → Prop where
  | login_step (w : World) (now : Int) (r : FetchOutcome LoginResponse)
      (f : FetchOutcome User) : Step w (login w now r f).1
  | logout_step (w : World) : Step w (logout w)
  | changePassword_step (w : World) (r : FetchOutcome Unit) :
      Step w (changePassword w r).1
  | refreshUserInfo_step (w : World) (r : FetchOutcome User) :
      Step w (refreshUserInfo w r)
  | refreshHealth_step (w : World) (r : FetchOutcome HealthResponse) :
      Step w (refreshHealth w r)
  | refreshSystemInfo_step (w : World) (r : FetchOutcome SystemInfo) :
      Step w (refreshSystemInfo w r)
  | refreshToken_step (w : World) (now : Int) : Step w (refreshToken w now).1
  | checkTokenExpiry_step (w : World) (now : Int) :
      Step w (checkTokenExpiry w now).1
  | restoreSession_step (w : World) (now : Int) : Step w (restoreSession w now)
  | handleAuthExpired_step (w : World) : Step w (handleAuthExpired w)

/-- States reachable from the initial empty state by session store steps. -/
inductive Reachable : World → Prop where
  | init : Reachable initialWorld
  | step {w w2 : World} : Reachable w → Step w w2 → Reachable w2

/-- The tie between the session fields and the authenticated flag as the code
maintains it: token and tokenExpiry present whenever authenticated; token,
tokenExpiry and user all absent whenever unauthenticated. -/
def tiedFields (w : World) : Prop :=
  (w.auth.isAuthenticated = true →
    w.auth.token.isSome = true ∧ w.auth.tokenExpiry.isSome = true) ∧
  (w.auth.isAuthenticated = false →
    w.auth.token = none ∧ w.auth.tokenExpiry = none ∧ w.auth.user = none)

/-- A sample user record, for concrete instantiations. -/
def u0 : User :=
  { id := 1, username := "admin", email := "admin@example.com",
    full_name := "Admin", is_active := true, is_admin := true,
    created_at := "2024-01-01", last_login := none }

/-- An authenticated world with user present and expiry at 300000 ms. -/
def wAuth : World :=
  { auth := { isAuthenticated := true, user := some u0, token := some "tok",
              tokenExpiry := some 300000, isConnected := false,
              systemInfo := none, health := none, isLoading := false,
              error := none },
    storage := ⟨some "tok", some (StoredUser.valid u0),
                some (StoredExpiry.valid 300000)⟩,
    apiToken := some "tok" }

/-- An authenticated world whose expiry is a full hour away. -/
def wAuthLong : World :=
  { wAuth with
    auth := { wAuth.auth with tokenExpiry := some 3600000 },
    storage := { wAuth.storage with
      badproxy_token_expiry := some (StoredExpiry.valid 3600000) } }

/-- An authenticated world holding a token and a future expiry but no user
record (the post-login state when the user info fetch has not succeeded). -/
def wAuthNoUser : World :=
  { wAuth with auth := { wAuth.auth with user := none } }

/-- A world whose storage holds a stale user and expiry but no token key. -/
def wStale : World :=
  { initialWorld with
    storage := ⟨none, some (StoredUser.valid u0),
                some (StoredExpiry.valid 999999)⟩ }

/-- A sample client state and error payload. -/
def c0 : ClientState := ⟨some "tok", ⟨some "tok", none, none⟩⟩

def d0 : ApiError := ⟨ApiErrorDetail.text "boom", none⟩

/-- The world right after the state and storage writes of a successful login
(AuthContext.tsx lines 141-153), before the user info fetch. -/
def loginSuccessState (w : World) (now : Int) (resp : LoginResponse) : World :=
  { w with
    auth := { w.auth with
      isLoading := true, error := none,
      token := some resp.access_token,
      isAuthenticated := true,
      tokenExpiry := some (now + resp.expires_in * 1000) },
    storage := { w.storage with
      badproxy_token := some resp.access_token,
      badproxy_token_expiry :=
        some (StoredExpiry.valid (now + resp.expires_in * 1000)) },
    apiToken := some resp.access_token }

/-- An unauthenticated world carrying a leftover error message. -/
def wPrevError : World :=
  { initialWorld with
    auth := { initialWorld.auth with error := some "previous" } }

/-- Perform a successful login from the empty start, then run the startup
restoration against a fresh world holding the storage that login wrote.
Returns the post-login world and the post-restore world. -/
def roundtripRestore (now now2 : Int) (r : LoginResponse) (u : User) :
    World × World :=
  ((login initialWorld now (FetchOutcome.ok r) (FetchOutcome.ok u)).1,
   restoreSession
     { initialWorld with
       storage :=
         (login initialWorld now (FetchOutcome.ok r)
           (FetchOutcome.ok u)).1.storage }
     now2)

lemma refreshUserInfo_eq_notAuth (w : World) (r : FetchOutcome User)
    (hb : w.auth.isAuthenticated = false) : refreshUserInfo w r = w := by
  simp [refreshUserInfo, hb]

lemma refreshUserInfo_eq_ok (w : World) (u : User)
    (hb : w.auth.isAuthenticated = true) :
    refreshUserInfo w (.ok u) =
      { w with
        auth := { w.auth with user := some u },
        storage := { w.storage with
          badproxy_user := some (StoredUser.valid u) } } := by
  simp [refreshUserInfo, hb]

lemma refreshUserInfo_eq_err (w : World) (m : Option String)
    (hb : w.auth.isAuthenticated = true) :
    refreshUserInfo w (.err m) =
      if errMessageIncludes m "401" then logout w else w := by
  simp [refreshUserInfo, hb]

lemma refreshToken_eq_noUser (w : World) (now : Int)
    (hu : w.auth.user = none) : refreshToken w now = (w, false) := by
  simp [refreshToken, hu]

lemma refreshToken_eq_user (w : World) (now : Int) (u : User)
    (hu : w.auth.user = some u) :
    refreshToken w now =
      ({ w with
         auth := { w.auth with tokenExpiry := some (now + 30 * 60 * 1000) },
         storage := { w.storage with
           badproxy_token_expiry :=
             some (StoredExpiry.valid (now + 30 * 60 * 1000)) } },
       true) := by
  simp [refreshToken, hu]

lemma login_eq_err (w : World) (now : Int) (m : Option String)
    (f : FetchOutcome User) :
    login w now (.err m) f =
      ({ w with auth := { w.auth with
           isLoading := false, error := some (m.getD "Login failed") } },
       false) := by
  simp [login]

lemma login_eq_emptyToken (w : World) (now : Int) (resp : LoginResponse)
    (f : FetchOutcome User) (hresp : resp.access_token = "") :
    login w now (.ok resp) f =
      ({ w with auth := { w.auth with isLoading := false, error := none } },
       false) := by
  simp [login, hresp]

lemma login_eq_ok (w : World) (now : Int) (resp : LoginResponse)
    (f : FetchOutcome User) (hresp : resp.access_token ≠ "") :
    login w now (.ok resp) f =
      ({ refreshUserInfo (loginSuccessState w now resp) f with
         auth := { (refreshUserInfo (loginSuccessState w now resp) f).auth with
           isLoading := false } },
       true) := by
  simp [login, loginSuccessState, hresp]

lemma tiedFields_logout (w : World) : tiedFields (logout w) := by
  simp [tiedFields, logout]

lemma tiedFields_handleAuthExpired (w : World) :
    tiedFields (handleAuthExpired w) := by
  simp [tiedFields, handleAuthExpired, logout]

lemma tiedFields_refreshUserInfo (w : World) (r : FetchOutcome User)
    (h : tiedFields w) : tiedFields (refreshUserInfo w r) := by
  cases hb : w.auth.isAuthenticated with
  | false => rw [refreshUserInfo_eq_notAuth w r hb]; exact h
  | true =>
      cases r with
      | ok u =>
          rw [refreshUserInfo_eq_ok w u hb]
          simpa [tiedFields, hb] using h.1 hb
      | err m =>
          rw [refreshUserInfo_eq_err w m hb]
          split
          · exact tiedFields_logout w
          · exact h

lemma tiedFields_refreshToken (w : World) (now : Int) (h : tiedFields w) :
    tiedFields (refreshToken w now).1 := by
  cases hu : w.auth.user with
  | none => rw [refreshToken_eq_noUser w now hu]; exact h
  | some u =>
      rw [refreshToken_eq_user w now u hu]
      cases hb : w.auth.isAuthenticated with
      | false => exact absurd (h.2 hb).2.2 (by simp [hu])
      | true => simpa [tiedFields, hb] using (h.1 hb).1

lemma tiedFields_login (w : World) (now : Int) (r : FetchOutcome LoginResponse)
    (f : FetchOutcome User) (h : tiedFields w) : tiedFields (login w now r f).1 := by
  cases r with
  | err m => rw [login_eq_err w now m f]; simpa [tiedFields] using h
  | ok resp =>
      by_cases hresp : resp.access_token = ""
      · rw [login_eq_emptyToken w now resp f hresp]
        simpa [tiedFields] using h
      · rw [login_eq_ok w now resp f hresp]
        have h2 : tiedFields (loginSuccessState w now resp) := by
          simp [tiedFields, loginSuccessState]
        have h3 := tiedFields_refreshUserInfo _ f h2
        simpa [tiedFields] using h3

lemma tiedFields_changePassword (w : World) (r : FetchOutcome Unit)
    (h : tiedFields w) : tiedFields (changePassword w r).1 := by
  cases r with
  | ok v => simpa [tiedFields, changePassword] using h
  | err m => simpa [tiedFields, changePassword] using h

lemma tiedFields_refreshHealth (w : World) (r : FetchOutcome HealthResponse)
    (h : tiedFields w) : tiedFields (refreshHealth w r) := by
  cases r with
  | ok v => simpa [tiedFields, refreshHealth] using h
  | err m =>
      by_cases he : w.auth.error = none
      · simpa [tiedFields, refreshHealth, he] using h
      · simpa [tiedFields, refreshHealth, he] using h

lemma tiedFields_refreshSystemInfo (w : World) (r : FetchOutcome SystemInfo)
    (h : tiedFields w) : tiedFields (refreshSystemInfo w r) := by
  by_cases hg : w.auth.isAuthenticated = false ∨ w.auth.isConnected = false
  · simpa [refreshSystemInfo, hg] using h
  · cases r with
    | ok v => simpa [tiedFields, refreshSystemInfo, hg] using h
    | err m =>
        by_cases hm : errorMasks w.auth.error = true
        · simpa [tiedFields, refreshSystemInfo, hg, hm] using h
        · simpa [tiedFields, refreshSystemInfo, hg, hm] using h

lemma checkTokenExpiry_eq_notAuth (w : World) (now : Int)
    (hb : w.auth.isAuthenticated = false) : checkTokenExpiry w now = (w, 0) := by
  simp [checkTokenExpiry, hb]

lemma checkTokenExpiry_eq_noExpiry (w : World) (now : Int)
    (hexp : w.auth.tokenExpiry = none) : checkTokenExpiry w now = (w, 0) := by
  cases hb : w.auth.isAuthenticated <;> simp [checkTokenExpiry, hb, hexp]

lemma checkTokenExpiry_eq_expired (w : World) (now e : Int)
    (hb : w.auth.isAuthenticated = true) (hexp : w.auth.tokenExpiry = some e)
    (hle : e - now ≤ 0) :
    checkTokenExpiry w now =
      ({ logout w with auth := { (logout w).auth with
           error := some "Your session has expired. Please log in again." } },
       0) := by
  have h1 : ¬ (e ≤ 300000 + now ∧ now < e) := by omega
  have h2 : e ≤ now := by omega
  simp [checkTokenExpiry, hb, hexp, h1, h2, hle]

lemma checkTokenExpiry_eq_renew (w : World) (now e : Int)
    (hb : w.auth.isAuthenticated = true) (hexp : w.auth.tokenExpiry = some e)
    (h1 : 0 < e - now) (h2 : e - now ≤ 5 * 60 * 1000) :
    checkTokenExpiry w now = ((refreshToken w now).1, 1) := by
  have hc : e ≤ 300000 + now ∧ now < e := by omega
  have hn : ¬ e ≤ now := by omega
  simp [checkTokenExpiry, hb, hexp, hc, hn]

lemma checkTokenExpiry_eq_far (w : World) (now e : Int)
    (hb : w.auth.isAuthenticated = true) (hexp : w.auth.tokenExpiry = some e)
    (hfar : 5 * 60 * 1000 < e - now) : checkTokenExpiry w now = (w, 0) := by
  have h1 : ¬ (e ≤ 300000 + now ∧ now < e) := by omega
  have hn : ¬ e ≤ now := by omega
  simp [checkTokenExpiry, hb, hexp, h1, hn]

lemma tiedFields_checkTokenExpiry (w : World) (now : Int) (h : tiedFields w) :
    tiedFields (checkTokenExpiry w now).1 := by
  cases hb : w.auth.isAuthenticated with
  | false => rw [checkTokenExpiry_eq_notAuth w now hb]; exact h
  | true =>
      cases hexp : w.auth.tokenExpiry with
      | none => rw [checkTokenExpiry_eq_noExpiry w now hexp]; exact h
      | some e =>
          rcases le_or_lt (e - now) 0 with hle | hpos
          · rw [checkTokenExpiry_eq_expired w now e hb hexp hle]
            simp [tiedFields, logout]
          · rcases le_or_lt (e - now) (5 * 60 * 1000) with hnear | hfar
            · rw [checkTokenExpiry_eq_renew w now e hb hexp hpos hnear]
              exact tiedFields_refreshToken w now h
            · rw [checkTokenExpiry_eq_far w now e hb hexp hfar]; exact h

lemma restoreSession_eq_noToken (w : World) (now : Int)
    (ht : w.storage.badproxy_token = none) :
    restoreSession w now =
      { w with auth := { w.auth with isLoading := false } } := by
  simp [restoreSession, ht]

lemma restoreSession_eq_noUser (w : World) (now : Int)
    (hu : w.storage.badproxy_user = none) :
    restoreSession w now =
      { w with auth := { w.auth with isLoading := false } } := by
  cases ht : w.storage.badproxy_token <;> simp [restoreSession, ht, hu]

lemma restoreSession_eq_malformedUser (w : World) (now : Int) (t : String)
    (ht : w.storage.badproxy_token = some t)
    (hu : w.storage.badproxy_user = some StoredUser.malformed) :
    restoreSession w now =
      { logout w with auth := { (logout w).auth with isLoading := false } } := by
  simp [restoreSession, ht, hu]

lemma restoreSession_eq_valid (w : World) (now : Int) (t : String) (u : User)
    (e : Int) (ht : w.storage.badproxy_token = some t)
    (hu : w.storage.badproxy_user = some (StoredUser.valid u))
    (he : w.storage.badproxy_token_expiry = some (StoredExpiry.valid e))
    (hlt : now < e) :
    restoreSession w now =
      { w with
        auth := { w.auth with
          token := some t, user := some u, tokenExpiry := some e,
          isAuthenticated := true, isLoading := false },
        apiToken := some t } := by
  simp [restoreSession, ht, hu, he, hlt]

lemma restoreSession_eq_stale (w : World) (now : Int) (t : String) (u : User)
    (ht : w.storage.badproxy_token = some t)
    (hu : w.storage.badproxy_user = some (StoredUser.valid u))
    (hstale : ∀ e, w.storage.badproxy_token_expiry =
        some (StoredExpiry.valid e) → e ≤ now) :
    restoreSession w now =
      { logout w with auth := { (logout w).auth with isLoading := false } } := by
  cases he : w.storage.badproxy_token_expiry with
  | none => simp [restoreSession, ht, hu, he]
  | some se =>
      cases se with
      | valid e =>
          have hle := hstale e he
          have hnlt : ¬ now < e := by omega
          simp [restoreSession, ht, hu, he, hnlt]
      | malformed => simp [restoreSession, ht, hu, he]

lemma tiedFields_restoreSession (w : World) (now : Int) (h : tiedFields w) :
    tiedFields (restoreSession w now) := by
  cases ht : w.storage.badproxy_token with
  | none => rw [restoreSession_eq_noToken w now ht]; simpa [tiedFields] using h
  | some t =>
      cases hu : w.storage.badproxy_user with
      | none => rw [restoreSession_eq_noUser w now hu]; simpa [tiedFields] using h
      | some su =>
          cases su with
          | malformed =>
              rw [restoreSession_eq_malformedUser w now t ht hu]
              simp [tiedFields, logout]
          | valid u =>
              cases he : w.storage.badproxy_token_expiry with
              | none =>
                  rw [restoreSession_eq_stale w now t u ht hu (by simp [he])]
                  simp [tiedFields, logout]
              | some se =>
                  cases se with
                  | malformed =>
                      rw [restoreSession_eq_stale w now t u ht hu (by simp [he])]
                      simp [tiedFields, logout]
                  | valid e =>
                      rcases lt_or_le now e with hlt | hle
                      · rw [restoreSession_eq_valid w now t u e ht hu he hlt]
                        simp [tiedFields]
                      · have hst : ∀ e2, w.storage.badproxy_token_expiry =
                            some (StoredExpiry.valid e2) → e2 ≤ now := by
                          intro e2 he2
                          rw [he] at he2
                          have : e2 = e := by simpa using he2.symm
                          omega
                        rw [restoreSession_eq_stale w now t u ht hu hst]
                        simp [tiedFields, logout]

lemma tiedFields_step {w w2 : World} (h : tiedFields w) (s : Step w w2) :
    tiedFields w2 := by
  cases s with
  | login_step now r f => exact tiedFields_login w now r f h
  | logout_step => exact tiedFields_logout w
  | changePassword_step r => exact tiedFields_changePassword w r h
  | refreshUserInfo_step r => exact tiedFields_refreshUserInfo w r h
  | refreshHealth_step r => exact tiedFields_refreshHealth w r h
  | refreshSystemInfo_step r => exact tiedFields_refreshSystemInfo w r h
  | refreshToken_step now => exact tiedFields_refreshToken w now h
  | checkTokenExpiry_step now => exact tiedFields_checkTokenExpiry w now h
  | restoreSession_step now => exact tiedFields_restoreSession w now h
  | handleAuthExpired_step => exact tiedFields_handleAuthExpired w

/-- C1 (counterexample): a successful login whose user info fetch fails with a
non 401 error leaves the store authenticated with currentUser absent, so the
three tied fields are not all present while authenticated, and currentUser is
not present immediately after this successful login. -/
theorem C1_counterexample :
    (login initialWorld 0 (FetchOutcome.ok ⟨"tok", "bearer", 3600⟩)
      (FetchOutcome.err (some "Network Error"))).2 = true ∧
    (login initialWorld 0 (FetchOutcome.ok ⟨"tok", "bearer", 3600⟩)
      (FetchOutcome.err (some "Network Error"))).1.auth.isAuthenticated = true ∧
    (login initialWorld 0 (FetchOutcome.ok ⟨"tok", "bearer", 3600⟩)
      (FetchOutcome.err (some "Network Error"))).1.auth.user = none ∧
    (login initialWorld 0 (FetchOutcome.ok ⟨"tok", "bearer", 3600⟩)
      (FetchOutcome.err (some "Network Error"))).1.auth.token = some "tok" := by
  refine ⟨?_, ?_, ?_, ?_⟩ <;> rfl

/-- C1 (amended): at every reachable state of the session store, token and
tokenExpiry are present whenever the store is authenticated, and token,
tokenExpiry and user are all absent whenever it is unauthenticated; currentUser
alone may be absent while authenticated. -/
theorem C1_tied_fields (w : World) (h : Reachable w) : tiedFields w := by
  induction h with
  | init => simp [tiedFields, initialWorld]
  | step hr hs ih => exact tiedFields_step ih hs

/-- Witness for C1 (amended), at the state reached by a successful login whose
user info fetch failed. -/
theorem C1_tied_fields_witness :
    tiedFields (login initialWorld 0 (FetchOutcome.ok ⟨"tok2", "bearer", 3600⟩)
      (FetchOutcome.err none)).1 :=
  C1_tied_fields _
    (Reachable.step Reachable.init (Step.login_step initialWorld 0 _ _))

/-- C2: the response interceptor classifies failures exhaustively and
exclusively: a 401 clears the client token and dispatches auth-expired with
the payload; a 403 dispatches access-denied leaving the state unchanged; a
status of at least 500 dispatches server-error with payload and status; a
network error or any other 4xx dispatches nothing and changes nothing (the
error is rejected to the caller in every case). -/
theorem C2_response_classification (c : ClientState) (d : ApiError)
    (s s2 : Int) :
    interceptError c none = (c, []) ∧
    interceptError c (some (401, d)) =
      ({ authToken := none,
         storage := { c.storage with
           badproxy_token := none, badproxy_user := none,
           badproxy_token_expiry := none } },
       [AppEvent.authExpired (some d)]) ∧
    interceptError c (some (403, d)) = (c, [AppEvent.accessDenied (some d)]) ∧
    (500 ≤ s →
      interceptError c (some (s, d)) = (c, [AppEvent.serverError (some d) s])) ∧
    (s2 ≠ 401 → s2 ≠ 403 → s2 < 500 →
      interceptError c (some (s2, d)) = (c, [])) := by
  refine ⟨rfl, rfl, rfl, fun hs => ?_, fun h1 h2 h3 => ?_⟩
  · have h4 : s ≠ 401 := by omega
    have h5 : s ≠ 403 := by omega
    have h6 : s ≠ 0 := by omega
    simp [interceptError, h4, h5, h6, hs]
  · have h4 : ¬ 500 ≤ s2 := by omega
    simp [interceptError, h1, h2, h4]

/-- Witness for C2 at a concrete 502 response and a concrete 404 response. -/
theorem C2_response_classification_witness :
    interceptError c0 (some (502, d0)) =
      (c0, [AppEvent.serverError (some d0) 502]) ∧
    interceptError c0 (some (404, d0)) = (c0, []) :=
  ⟨(C2_response_classification c0 d0 502 404).2.2.2.1 (by norm_num),
   (C2_response_classification c0 d0 502 404).2.2.2.2 (by norm_num)
     (by norm_num) (by norm_num)⟩

/-- C3: while authenticated with expiry e, a firing of the expiry watch with
remaining time e - now forces logout with a non empty session expired message
when the remaining time is nonpositive, invokes refreshToken exactly once with
no forced logout when the remaining time is positive and at most five minutes
(threshold included), and changes nothing when more time remains. -/
theorem C3_expiry_watch (w : World) (now e : Int)
    (hauth : w.auth.isAuthenticated = true)
    (hexp : w.auth.tokenExpiry = some e) :
    (e - now ≤ 0 →
      (checkTokenExpiry w now).1.auth.isAuthenticated = false ∧
      (checkTokenExpiry w now).1.auth.error =
        some "Your session has expired. Please log in again." ∧
      "Your session has expired. Please log in again." ≠ "" ∧
      (checkTokenExpiry w now).2 = 0) ∧
    (0 < e - now → e - now ≤ 5 * 60 * 1000 →
      (checkTokenExpiry w now).2 = 1 ∧
      (checkTokenExpiry w now).1.auth.isAuthenticated = true) ∧
    (5 * 60 * 1000 < e - now → checkTokenExpiry w now = (w, 0)) := by
  refine ⟨fun hle => ?_, fun h1 h2 => ?_, fun hfar => ?_⟩
  · rw [checkTokenExpiry_eq_expired w now e hauth hexp hle]
    refine ⟨rfl, rfl, by decide, rfl⟩
  · rw [checkTokenExpiry_eq_renew w now e hauth hexp h1 h2]
    refine ⟨rfl, ?_⟩
    cases hu : w.auth.user with
    | none => rw [refreshToken_eq_noUser w now hu]; exact hauth
    | some u => rw [refreshToken_eq_user w now u hu]; exact hauth
  · rw [checkTokenExpiry_eq_far w now e hauth hexp hfar]

/-- Witness for C3 at the authenticated world wAuth with remaining time equal
to the five minute threshold. -/
theorem C3_expiry_watch_witness :
    (checkTokenExpiry wAuth 0).2 = 1 ∧
    (checkTokenExpiry wAuth 0).1.auth.isAuthenticated = true :=
  (C3_expiry_watch wAuth 0 300000 rfl rfl).2.1 (by decide) (by decide)

/-- C4 (counterexample): a login answered by a well formed 2xx with an empty
access_token returns false but leaves lastError cleared to null (it even
erases a previously displayed error), so a failing login does not always set
lastError. -/
theorem C4_counterexample :
    wPrevError.auth.error = some "previous" ∧
    (login wPrevError 0 (FetchOutcome.ok ⟨"", "bearer", 3600⟩)
      (FetchOutcome.err none)).2 = false ∧
    (login wPrevError 0 (FetchOutcome.ok ⟨"", "bearer", 3600⟩)
      (FetchOutcome.err none)).1.auth.error = none := by
  refine ⟨rfl, ?_, ?_⟩ <;> rfl

/-- C4 (amended): every failing login returns false without throwing, leaves
the store unauthenticated with no token in memory and storage untouched; when
the failure is a thrown error lastError is set (to the error message or the
fallback Login failed), while on a malformed success response lacking an
access token lastError is left cleared. -/
theorem C4_login_failure (w : World) (now : Int) (m : Option String)
    (r : LoginResponse) (f : FetchOutcome User)
    (hauth : w.auth.isAuthenticated = false) (htok : w.auth.token = none)
    (hmal : r.access_token = "") :
    ((login w now (FetchOutcome.err m) f).2 = false ∧
     (login w now (FetchOutcome.err m) f).1.auth.error =
       some (m.getD "Login failed") ∧
     (login w now (FetchOutcome.err m) f).1.auth.isAuthenticated = false ∧
     (login w now (FetchOutcome.err m) f).1.auth.token = none ∧
     (login w now (FetchOutcome.err m) f).1.storage = w.storage) ∧
    ((login w now (FetchOutcome.ok r) f).2 = false ∧
     (login w now (FetchOutcome.ok r) f).1.auth.error = none ∧
     (login w now (FetchOutcome.ok r) f).1.auth.isAuthenticated = false ∧
     (login w now (FetchOutcome.ok r) f).1.auth.token = none ∧
     (login w now (FetchOutcome.ok r) f).1.storage = w.storage) := by
  constructor
  · rw [login_eq_err w now m f]
    simp [hauth, htok]
  · rw [login_eq_emptyToken w now r f hmal]
    simp [hauth, htok]

/-- Witness for C4 (amended) at a concrete thrown network error and a concrete
malformed response, from the empty start state. -/
theorem C4_login_failure_witness :
    (login initialWorld 5 (FetchOutcome.err (some "Network Error"))
      (FetchOutcome.err none)).2 = false ∧
    (login initialWorld 5 (FetchOutcome.ok ⟨"", "b", 10⟩)
      (FetchOutcome.err none)).1.auth.error = none :=
  ⟨(C4_login_failure initialWorld 5 (some "Network Error") ⟨"", "b", 10⟩
      (FetchOutcome.err none) rfl rfl rfl).1.1,
   (C4_login_failure initialWorld 5 (some "Network Error") ⟨"", "b", 10⟩
      (FetchOutcome.err none) rfl rfl rfl).2.2.1⟩

/-- C5 (counterexample): when the credential exchange is rejected with an
error whose message carries server internals, lastError is set to exactly that
raw message, not to a message indicating invalid credentials. -/
theorem C5_counterexample :
    (login initialWorld 0
      (FetchOutcome.err (some "Request failed with status code 500"))
      (FetchOutcome.err none)).1.auth.error =
      some "Request failed with status code 500" := rfl

/-- C5 (amended): on a failed credential exchange, lastError is set to the
thrown error message itself when the thrown value is an Error (the raw
message, which may leak server internals), and to the fixed fallback Login
failed otherwise. -/
theorem C5_login_error_is_raw (w : World) (now : Int) (f : FetchOutcome User)
    (m : String) :
    (login w now (FetchOutcome.err (some m)) f).1.auth.error = some m ∧
    (login w now (FetchOutcome.err none) f).1.auth.error =
      some "Login failed" := by
  constructor <;> simp [login_eq_err]

/-- C6 (counterexample): a snapshot holding a stored user and expiry but no
token key leaves the store unauthenticated, yet the stale user and expiry keys
are not erased from storage, so the whole snapshot is not discarded. -/
theorem C6_counterexample :
    wStale.storage.badproxy_token = none ∧
    (restoreSession wStale 0).auth.isAuthenticated = false ∧
    (restoreSession wStale 0).storage.badproxy_user =
      some (StoredUser.valid u0) ∧
    (restoreSession wStale 0).storage.badproxy_token_expiry =
      some (StoredExpiry.valid 999999) := by
  refine ⟨rfl, ?_, ?_, ?_⟩ <;> rfl

/-- C6 (amended): when both stored token and user are present but the expiry
is missing, malformed or not in the future, or the stored user is unparsable,
restoration leaves the store unauthenticated and erases the whole snapshot;
when the token or user key is missing, the store stays as it was (in
particular unauthenticated at startup) with no field restored, but the
remaining stale keys are not erased. -/
theorem C6_restore_discard (w : World) (now : Int) (t : String) (u : User)
    (hu : w.auth.isAuthenticated = false) :
    (w.storage.badproxy_token = some t →
      w.storage.badproxy_user = some (StoredUser.valid u) →
      (∀ e, w.storage.badproxy_token_expiry = some (StoredExpiry.valid e) →
        e ≤ now) →
      (restoreSession w now).auth.isAuthenticated = false ∧
      (restoreSession w now).storage = Storage.empty ∧
      (restoreSession w now).auth.user = none ∧
      (restoreSession w now).auth.token = none ∧
      (restoreSession w now).auth.tokenExpiry = none) ∧
    (w.storage.badproxy_token = some t →
      w.storage.badproxy_user = some StoredUser.malformed →
      (restoreSession w now).auth.isAuthenticated = false ∧
      (restoreSession w now).storage = Storage.empty) ∧
    ((w.storage.badproxy_token = none ∨ w.storage.badproxy_user = none) →
      (restoreSession w now).auth.isAuthenticated = false ∧
      (restoreSession w now).storage = w.storage ∧
      (restoreSession w now).auth.user = w.auth.user ∧
      (restoreSession w now).auth.token = w.auth.token) := by
  refine ⟨fun ht hu2 hstale => ?_, fun ht hu2 => ?_, fun hmiss => ?_⟩
  · rw [restoreSession_eq_stale w now t u ht hu2 hstale]
    simp [logout, Storage.empty]
  · rw [restoreSession_eq_malformedUser w now t ht hu2]
    simp [logout, Storage.empty]
  · rcases hmiss with ht | hu2
    · rw [restoreSession_eq_noToken w now ht]
      simp [hu]
    · rw [restoreSession_eq_noUser w now hu2]
      simp [hu]

/-- Witness for C6 (amended) at the stale world with the token key missing. -/
theorem C6_restore_discard_witness :
    (restoreSession wStale 5).auth.isAuthenticated = false ∧
    (restoreSession wStale 5).storage = wStale.storage :=
  ⟨((C6_restore_discard wStale 5 "t" u0 rfl).2.2 (Or.inl rfl)).1,
   ((C6_restore_discard wStale 5 "t" u0 rfl).2.2 (Or.inl rfl)).2.1⟩

/-- C7: a successful login (with a nonempty token and a successful user
fetch) followed by the startup restoration run on the storage it wrote, at any
instant before the expiry, reproduces authenticated = true with the same
token, the same user record and the same expiry. -/
theorem C7_roundtrip (now now2 : Int) (r : LoginResponse) (u : User)
    (ht : r.access_token ≠ "") (hfut : now2 < now + r.expires_in * 1000) :
    (roundtripRestore now now2 r u).2.auth.isAuthenticated = true ∧
    (roundtripRestore now now2 r u).2.auth.token =
      (roundtripRestore now now2 r u).1.auth.token ∧
    (roundtripRestore now now2 r u).2.auth.user =
      (roundtripRestore now now2 r u).1.auth.user ∧
    (roundtripRestore now now2 r u).2.auth.tokenExpiry =
      (roundtripRestore now now2 r u).1.auth.tokenExpiry := by
  unfold roundtripRestore
  rw [login_eq_ok initialWorld now r (FetchOutcome.ok u) ht]
  rw [refreshUserInfo_eq_ok (loginSuccessState initialWorld now r) u rfl]
  rw [restoreSession_eq_valid _ now2 r.access_token u
    (now + r.expires_in * 1000) rfl rfl rfl hfut]
  simp [loginSuccessState]

/-- Witness for C7 at a concrete login response and restore instant. -/
theorem C7_roundtrip_witness :
    (roundtripRestore 0 1000 ⟨"tok", "bearer", 3600⟩ u0).2.auth.isAuthenticated
      = true ∧
    (roundtripRestore 0 1000 ⟨"tok", "bearer", 3600⟩ u0).2.auth.token =
      (roundtripRestore 0 1000 ⟨"tok", "bearer", 3600⟩ u0).1.auth.token :=
  ⟨(C7_roundtrip 0 1000 ⟨"tok", "bearer", 3600⟩ u0 (by decide) (by decide)).1,
   (C7_roundtrip 0 1000 ⟨"tok", "bearer", 3600⟩ u0 (by decide)
     (by decide)).2.1⟩

/-- C8: logout always succeeds, clears the in memory session fields and all
three persisted keys, and is idempotent: a second logout yields exactly the
same end state. -/
theorem C8_logout_idempotent (w : World) :
    (logout w).auth.isAuthenticated = false ∧
    (logout w).auth.user = none ∧
    (logout w).auth.token = none ∧
    (logout w).auth.tokenExpiry = none ∧
    (logout w).storage.badproxy_token = none ∧
    (logout w).storage.badproxy_user = none ∧
    (logout w).storage.badproxy_token_expiry = none ∧
    logout (logout w) = logout w := by
  refine ⟨rfl, rfl, rfl, rfl, rfl, rfl, rfl, rfl⟩

/-- C9 (counterexample): with a full hour remaining, refreshToken succeeds and
moves tokenExpiresAt backward from 3600000 to 1800000, so renewToken can move
the expiry backward. -/
theorem C9_counterexample :
    wAuthLong.auth.tokenExpiry = some 3600000 ∧
    (refreshToken wAuthLong 0).2 = true ∧
    (refreshToken wAuthLong 0).1.auth.tokenExpiry = some 1800000 ∧
    (1800000 : Int) < 3600000 := by
  refine ⟨rfl, rfl, rfl, by decide⟩

/-- C9 (amended): when a user record is present, renewToken sets
tokenExpiresAt to exactly thirty minutes after now, a strictly future instant,
though possibly earlier than the previous expiry; logout clears the expiry;
and a firing of the expiry watch leaves the expiry unchanged, renews it to
thirty minutes after now, or clears it. -/
theorem C9_expiry_evolution (w : World) (now : Int) (u : User)
    (hu : w.auth.user = some u) :
    (refreshToken w now).1.auth.tokenExpiry = some (now + 30 * 60 * 1000) ∧
    now < now + 30 * 60 * 1000 ∧
    (∀ w2 : World, (logout w2).auth.tokenExpiry = none) ∧
    (∀ (w2 : World) (now2 : Int),
      (checkTokenExpiry w2 now2).1.auth.tokenExpiry = w2.auth.tokenExpiry ∨
      (checkTokenExpiry w2 now2).1.auth.tokenExpiry =
        some (now2 + 30 * 60 * 1000) ∨
      (checkTokenExpiry w2 now2).1.auth.tokenExpiry = none) := by
  refine ⟨?_, by omega, fun w2 => rfl, fun w2 now2 => ?_⟩
  · rw [refreshToken_eq_user w now u hu]
  · cases hb : w2.auth.isAuthenticated with
    | false => left; rw [checkTokenExpiry_eq_notAuth w2 now2 hb]
    | true =>
        cases hexp : w2.auth.tokenExpiry with
        | none =>
            left
            rw [checkTokenExpiry_eq_noExpiry w2 now2 hexp]
            exact hexp
        | some e =>
            rcases le_or_lt (e - now2) 0 with hle | hpos
            · right; right
              rw [checkTokenExpiry_eq_expired w2 now2 e hb hexp hle]
              rfl
            · rcases le_or_lt (e - now2) (5 * 60 * 1000) with hnear | hfar
              · rw [checkTokenExpiry_eq_renew w2 now2 e hb hexp hpos hnear]
                cases hu2 : w2.auth.user with
                | none =>
                    left
                    rw [refreshToken_eq_noUser w2 now2 hu2]
                    exact hexp
                | some u2 =>
                    right; left
                    rw [refreshToken_eq_user w2 now2 u2 hu2]
              · left
                rw [checkTokenExpiry_eq_far w2 now2 e hb hexp hfar]
                exact hexp

/-- Witness for C9 (amended) at the authenticated world wAuth. -/
theorem C9_expiry_evolution_witness :
    (refreshToken wAuth 0).1.auth.tokenExpiry = some (0 + 30 * 60 * 1000) :=
  (C9_expiry_evolution wAuth 0 u0 rfl).1

/-- C10: when currentUser is absent, refreshToken returns false and changes
nothing at all: the whole world, in particular tokenExpiry and the persisted
expiry key, is left unchanged, even in an authenticated state holding a valid
unexpired token. -/
theorem C10_refreshToken_requires_user (w : World) (now : Int)
    (hu : w.auth.user = none) :
    (refreshToken w now).2 = false ∧
    (refreshToken w now).1 = w ∧
    (refreshToken w now).1.auth.tokenExpiry = w.auth.tokenExpiry ∧
    (refreshToken w now).1.storage.badproxy_token_expiry =
      w.storage.badproxy_token_expiry := by
  rw [refreshToken_eq_noUser w now hu]
  exact ⟨rfl, rfl, rfl, rfl⟩

/-- Witness for C10 at an authenticated world holding a token and a future
expiry but no user record. -/
theorem C10_refreshToken_requires_user_witness :
    wAuthNoUser.auth.isAuthenticated = true ∧
    wAuthNoUser.auth.token = some "tok" ∧
    (refreshToken wAuthNoUser 7).2 = false ∧
    (refreshToken wAuthNoUser 7).1 = wAuthNoUser :=
  ⟨rfl, rfl, (C10_refreshToken_requires_user wAuthNoUser 7 rfl).1,
   (C10_refreshToken_requires_user wAuthNoUser 7 rfl).2.1⟩

end BadProxy
